import Mathlib

/-!
Verification development for the semantic FAQ matching service (`src/app.py`).

Vectors are embedded as lists of real numbers; the Euclidean norm uses
`Real.sqrt`, matching `np.linalg.norm`.  The Mongo collection
`company_faqs` is embedded as a list of `Company` documents in insertion
order; `find_one` is `List.find?` and `$push/$each` appends to the first
matching document.  JSON request bodies are embedded as structures whose
fields are `Option`-valued (a missing key is `none`); a missing or falsy
body is `none` at the outer `Option`.
-/

namespace FaqService

/-- `np.dot` on two vectors. -/
def dot (v1 v2 : List ℝ) : ℝ :=
  (List.zipWith (fun x y => x * y) v1 v2).sum

/-- `np.linalg.norm`: square root of the sum of squares. -/
noncomputable def norm (v : List ℝ) : ℝ :=
  Real.sqrt ((v.map (fun x => x * x)).sum)

/-- `cosine_similarity` from `src/app.py` lines 39-50: if either norm is
zero return `0.0`, otherwise the dot product over the product of norms. -/
noncomputable def cosine_similarity (v1 v2 : List ℝ) : ℝ :=
  if norm v1 = 0 ∨ norm v2 = 0 then 0
  else dot v1 v2 / (norm v1 * norm v2)

/-- A stored FAQ record: the dict `{question, answer, vector}` written by
`train` and read by `ask`. -/
structure Faq where
  question : String
  answer : String
  vector : List ℝ

/-- A document of the `company_faqs` collection: `{company_id, faqs}`. -/
structure Company where
  company_id : String
  faqs : List Faq

/-- One item of the `faqs` array of a train request; `item.get` of a
missing key is `none`. -/
structure FaqItem where
  question : Option String
  answer : Option String

/-- Body of a train request (`none` field = key absent). -/
structure TrainRequest where
  company_id : Option String
  faqs : Option (List FaqItem)

/-- Body of an ask request (`none` field = key absent). -/
structure AskRequest where
  company_id : Option String
  question : Option String

/-- Outcome of the `/train` endpooint, by response class:
`invalidInput` = 400 missing fields, `noValidInput` = 400 all items
filtered, `success` = 200. -/
inductive TrainResult where
  | invalidInput : TrainResult
  | noValidInput : TrainResult
  | success : TrainResult

/-- Outcome of the `/ask` endpoint: `invalidInput` = 400 missing fields,
`answer t` = 200 with body `{"answer": t}`. -/
inductive AskResult where
  | invalidInput : AskResult
  | answer : String → AskResult

/-- `"Sorry, no relevant answer found."` -/
def noMatchMsg : String := "Sorry, no relevant answer found."

/-- `"Company not trained yet."` -/
def notTrainedMsg : String := "Company not trained yet."

/-- `SIMILARITY_THRESHOLD = 0.7` (`src/app.py` line 164). -/
def SIMILARITY_THRESHOLD : ℝ := 0.7

/-- `collection.find_one({"company_id": company_id})`. -/
def findCompany (db : List Company) (cid : String) : Option Company :=
  db.find? (fun c => c.company_id == cid)

/-- The per-item validation-and-embedding loop of `train`
(`src/app.py` lines 74-89): an item whose `question` or `answer` is
missing or falsy (empty string) is skipped, any other item becomes a
record with the embedding of its question. -/
def processFaqs (embed : String → List ℝ) : List FaqItem → List Faq
  | [] => []
  | it :: rest =>
    match it.question, it.answer with
    | some q, some a =>
      if q = "" || a = "" then processFaqs embed rest
      else Faq.mk q a (embed q) :: processFaqs embed rest
    | _, _ => processFaqs embed rest

/-- The skip condition of the loop: `if not question or not answer`. -/
def itemSkipped (it : FaqItem) : Prop :=
  it.question = none ∨ it.question = some ("") ∨
    it.answer = none ∨ it.answer = some ("")

/-- `update_one({"company_id": cid}, {"$push": {"faqs": {"$each": new}}})`:
append `new` to the `faqs` of the first matching document. -/
def pushFaqs : List Company → String → List Faq → List Company
  | [], _, _ => []
  | c :: rest, cid, new =>
    if c.company_id == cid then Company.mk c.company_id (c.faqs ++ new) :: rest
    else c :: pushFaqs rest cid new

/-- The `/train` endpoint (`src/app.py` lines 52-117), as a function of
the embedder, the stored collection and the request body; returns the
response class and the collection after the call. -/
def train (embed : String → List ℝ) (db : List Company)
    (data : Option TrainRequest) : TrainResult × List Company :=
  match data with
  | none => (TrainResult.invalidInput, db)
  | some d =>
    match d.company_id, d.faqs with
    | some cid, some faqs =>
      let processed := processFaqs embed faqs
      if processed.isEmpty then (TrainResult.noValidInput, db)
      else
        match findCompany db cid with
        | some _ => (TrainResult.success, pushFaqs db cid processed)
        | none => (TrainResult.success, db ++ [Company.mk cid processed])
    | _, _ => (TrainResult.invalidInput, db)

/-- One iteration of the matcher loop (`src/app.py` lines 152-161):
skip a record with a missing/empty vector, otherwise replace the
running best iff the similarity is strictly greater. -/
noncomputable def scanStep (q : List ℝ) (st : ℝ × Option Faq) (f : Faq) :
    ℝ × Option Faq :=
  if f.vector.isEmpty then st
  else if cosine_similarity q f.vector > st.1 then
    (cosine_similarity q f.vector, some f)
  else st

/-- The matcher's linear scan, started from
`best_similarity = -1.0, best_match = None` (lines 147-161). -/
noncomputable def matchScan (q : List ℝ) (faqs : List Faq) : ℝ × Option Faq :=
  faqs.foldl (scanStep q) (-1, none)

/-- The decision after the scan (lines 163-184):
`if best_similarity >= SIMILARITY_THRESHOLD and best_match:` return the
best record's answer, else the rejection sentinel. -/
noncomputable def askAnswer (q : List ℝ) (faqs : List Faq) : String :=
  if SIMILARITY_THRESHOLD ≤ (matchScan q faqs).1 ∧ ((matchScan q faqs).2).isSome
  then (((matchScan q faqs).2).getD (Faq.mk ("") ("") [])).answer
  else noMatchMsg

/-- The `/ask` endpoint (`src/app.py` lines 119-187) as a function of the
embedder, the stored collection and the request body. -/
noncomputable def ask (embed : String → List ℝ) (db : List Company)
    (data : Option AskRequest) : AskResult :=
  match data with
  | none => AskResult.invalidInput
  | some d =>
    match d.company_id, d.question with
    | some cid, some q =>
      match findCompany db cid with
      | none => AskResult.answer notTrainedMsg
      | some doc => AskResult.answer (askAnswer (embed q) doc.faqs)
    | _, _ => AskResult.invalidInput

/-- Concrete embedder used in witnesses: every text maps to `[1]`. -/
def embedW : String → List ℝ := fun _ => [1]

/-- Concrete embedder used in witnesses: every text maps to the
zero vector `[0]` (as spaCy does for an empty string). -/
def embedZ : String → List ℝ := fun _ => [0]

end FaqService

namespace FaqService

/-! ### Concrete evaluations of `norm` and `cosine_similarity` -/

lemma norm_single_one : norm [(1 : ℝ)] = 1 := by
  simp [norm]

lemma norm_single_negone : norm [(-1 : ℝ)] = 1 := by
  have h : ((List.map (fun x => x * x) [(-1 : ℝ)]).sum) = 1 := by norm_num
  rw [norm, h, Real.sqrt_one]

lemma norm_single_zero : norm [(0 : ℝ)] = 0 := by
  simp [norm]

lemma norm_pair_zero : norm [(0 : ℝ), 0] = 0 := by
  simp [norm]

lemma norm_q4 : norm [(1 : ℝ), 0, 0, 0] = 1 := by
  simp [norm]

lemma norm_v7551 : norm [(7 : ℝ), 5, 5, 1] = 10 := by
  have h : ((List.map (fun x => x * x) [(7 : ℝ), 5, 5, 1]).sum) = 100 := by
    norm_num
  rw [norm, h, show (100 : ℝ) = 10 ^ 2 by norm_num,
    Real.sqrt_sq (by norm_num : (0 : ℝ) ≤ 10)]

lemma norm_v1111 : norm [(1 : ℝ), 1, 1, 1] = 2 := by
  have h : ((List.map (fun x => x * x) [(1 : ℝ), 1, 1, 1]).sum) = 4 := by
    norm_num
  rw [norm, h, show (4 : ℝ) = 2 ^ 2 by norm_num,
    Real.sqrt_sq (by norm_num : (0 : ℝ) ≤ 2)]

lemma cos_one_one : cosine_similarity [(1 : ℝ)] [(1 : ℝ)] = 1 := by
  rw [cosine_similarity, if_neg (by rw [norm_single_one]; norm_num)]
  simp [dot, norm_single_one]

lemma cos_one_negone : cosine_similarity [(1 : ℝ)] [(-1 : ℝ)] = -1 := by
  rw [cosine_similarity,
    if_neg (by rw [norm_single_one, norm_single_negone]; norm_num)]
  rw [norm_single_one, norm_single_negone]
  simp [dot]

lemma cos_main : cosine_similarity [(1 : ℝ), 0, 0, 0] [7, 5, 5, 1] = 7 / 10 := by
  rw [cosine_similarity, if_neg (by rw [norm_q4, norm_v7551]; norm_num)]
  rw [norm_q4, norm_v7551]
  have h : dot [(1 : ℝ), 0, 0, 0] [7, 5, 5, 1] = 7 := by
    simp [dot]
  rw [h]; norm_num

lemma cos_low : cosine_similarity [(1 : ℝ), 0, 0, 0] [1, 1, 1, 1] = 1 / 2 := by
  rw [cosine_similarity, if_neg (by rw [norm_q4, norm_v1111]; norm_num)]
  rw [norm_q4, norm_v1111]
  have h : dot [(1 : ℝ), 0, 0, 0] [1, 1, 1, 1] = 1 := by
    simp [dot]
  rw [h]; norm_num

lemma cos_zero_one : cosine_similarity [(0 : ℝ)] [(1 : ℝ)] = 0 := by
  rw [cosine_similarity, if_pos (Or.inl norm_single_zero)]

lemma threshold_eq : SIMILARITY_THRESHOLD = 7 / 10 := by
  norm_num [SIMILARITY_THRESHOLD]

/-! ### Invariants of the matcher scan -/

/-- If every record of `l` with a nonempty vector scores at most the
current best, folding the scan step over `l` leaves the state unchanged
(a candidate must score strictly greater to replace the best). -/
lemma foldl_scanStep_of_le (q : List ℝ) :
    ∀ (l : List Faq) (st : ℝ × Option Faq),
      (∀ f ∈ l, f.vector.isEmpty = false → cosine_similarity q f.vector ≤ st.1) →
      List.foldl (scanStep q) st l = st := by
  intro l
  induction l with
  | nil => intro st _; rfl
  | cons f rest ih =>
    intro st h
    have hstep : scanStep q st f = st := by
      rw [scanStep]
      cases hv : f.vector.isEmpty with
      | true => simp
      | false =>
        have hle := h f (List.mem_cons_self f rest) hv
        simp only [Bool.false_eq_true, if_false]
        exact if_neg (not_lt.mpr hle)
    rw [List.foldl_cons, hstep]
    exact ih st (fun g hg hgv => h g (List.mem_cons_of_mem f hg) hgv)

/-- If the current best score is below `c` and every record of `l` with a
nonempty vector scores below `c`, the score after folding stays below `c`. -/
lemma foldl_scanStep_lt (q : List ℝ) (c : ℝ) :
    ∀ (l : List Faq) (st : ℝ × Option Faq),
      st.1 < c →
      (∀ f ∈ l, f.vector.isEmpty = false → cosine_similarity q f.vector < c) →
      (List.foldl (scanStep q) st l).1 < c := by
  intro l
  induction l with
  | nil => intro st hst _; exact hst
  | cons f rest ih =>
    intro st hst h
    rw [List.foldl_cons]
    have hstep : (scanStep q st f).1 < c := by
      rw [scanStep]
      cases hv : f.vector.isEmpty with
      | true => simpa using hst
      | false =>
        simp only [Bool.false_eq_true, if_false]
        by_cases hgt : cosine_similarity q f.vector > st.1
        · rw [if_pos hgt]
          exact h f (List.mem_cons_self f rest) hv
        · rw [if_neg hgt]; exact hst
    exact ih (scanStep q st f) hstep
      (fun g hg hgv => h g (List.mem_cons_of_mem f hg) hgv)

/-! ### Concrete scan evaluations -/

lemma scan_main :
    matchScan [(1 : ℝ), 0, 0, 0] [Faq.mk ("q1") ("a1") [7, 5, 5, 1]] =
      (7 / 10, some (Faq.mk ("q1") ("a1") [7, 5, 5, 1])) := by
  rw [matchScan, List.foldl_cons, List.foldl_nil, scanStep]
  simp only [List.isEmpty_cons, Bool.false_eq_true, if_false]
  rw [cos_main, if_pos (by norm_num)]

lemma scan_low :
    matchScan [(1 : ℝ), 0, 0, 0] [Faq.mk ("q2") ("a2") [1, 1, 1, 1]] =
      (1 / 2, some (Faq.mk ("q2") ("a2") [1, 1, 1, 1])) := by
  rw [matchScan, List.foldl_cons, List.foldl_nil, scanStep]
  simp only [List.isEmpty_cons, Bool.false_eq_true, if_false]
  rw [cos_low, if_pos (by norm_num)]

/-! ### Claims -/

/-- Claim C1: after the matcher's scan, the match is accepted iff a best
candidate was found and its score is at least the fixed threshold `0.7`;
on acceptance (including a score of exactly `0.7`) the best record's
answer is returned, otherwise the rejection sentinel is returned. -/
theorem askAnswer_threshold (q : List ℝ) (faqs : List Faq) :
    ((matchScan q faqs).2 = none → askAnswer q faqs = noMatchMsg) ∧
    (∀ f, (matchScan q faqs).2 = some f →
      (SIMILARITY_THRESHOLD ≤ (matchScan q faqs).1 →
        askAnswer q faqs = f.answer) ∧
      ((matchScan q faqs).1 < SIMILARITY_THRESHOLD →
        askAnswer q faqs = noMatchMsg)) := by
  constructor
  · intro h
    rw [askAnswer, if_neg]
    intro hc
    rw [h] at hc
    simp at hc
  · intro f hf
    constructor
    · intro hT
      rw [askAnswer, if_pos ⟨hT, by rw [hf]; rfl⟩, hf]
      rfl
    · intro hlt
      rw [askAnswer, if_neg (fun hc => absurd hc.1 (not_le.mpr hlt))]

/-- Witness for C1: a candidate scoring exactly `0.7` is accepted and its
answer returned; one scoring `0.5` is rejected with the sentinel. -/
theorem askAnswer_threshold_witness :
    askAnswer [(1 : ℝ), 0, 0, 0] [Faq.mk ("q1") ("a1") [7, 5, 5, 1]] = "a1" ∧
    askAnswer [(1 : ℝ), 0, 0, 0] [Faq.mk ("q2") ("a2") [1, 1, 1, 1]] = noMatchMsg := by
  constructor
  · exact ((askAnswer_threshold [(1 : ℝ), 0, 0, 0]
      [Faq.mk ("q1") ("a1") [7, 5, 5, 1]]).2 (Faq.mk ("q1") ("a1") [7, 5, 5, 1])
      (by rw [scan_main])).1 (by rw [scan_main, threshold_eq])
  · exact ((askAnswer_threshold [(1 : ℝ), 0, 0, 0]
      [Faq.mk ("q2") ("a2") [1, 1, 1, 1]]).2 (Faq.mk ("q2") ("a2") [1, 1, 1, 1])
      (by rw [scan_low])).2 (by rw [scan_low, threshold_eq]; norm_num)

/-- Claim C5: if either vector has zero Euclidean norm,
`cosine_similarity` returns exactly `0`; the division branch is not
taken. -/
theorem cosine_similarity_zero_norm (v1 v2 : List ℝ)
    (h : norm v1 = 0 ∨ norm v2 = 0) :
    cosine_similarity v1 v2 = 0 := by
  rw [cosine_similarity, if_pos h]

/-- Witness for C5: the all-zero vector `[0, 0]` has zero norm and its
similarity against `[1, 2]` is exactly `0`. -/
theorem cosine_similarity_zero_norm_witness :
    norm [(0 : ℝ), 0] = 0 ∧ cosine_similarity [(0 : ℝ), 0] [1, 2] = 0 :=
  ⟨norm_pair_zero,
    cosine_similarity_zero_norm [(0 : ℝ), 0] [1, 2] (Or.inl norm_pair_zero)⟩

/-- Claim C6: `cosine_similarity` is symmetric in its two arguments. -/
theorem cosine_similarity_symm (v1 v2 : List ℝ) :
    cosine_similarity v1 v2 = cosine_similarity v2 v1 := by
  have hd : dot v1 v2 = dot v2 v1 := by
    rw [dot, dot, List.zipWith_comm_of_comm (fun x y => x * y) mul_comm]
  by_cases h : norm v1 = 0 ∨ norm v2 = 0
  · rw [cosine_similarity, if_pos h, cosine_similarity, if_pos h.symm]
  · rw [cosine_similarity, if_neg h, cosine_similarity,
      if_neg (fun hc => h hc.symm)]
    rw [hd, mul_comm]

/-- Counterexample to C2 as stated: for the query `[1]` and two records
both with vector `[-1]`, the two similarities are equal (both exactly
`-1`, hence maximal), yet the matcher returns no record at all — not the
earlier one — because the running best is initialised to exactly `-1`
and a candidate must score strictly greater to be recorded. -/
theorem scan_tie_at_sentinel_cex :
    cosine_similarity [(1 : ℝ)] [(-1 : ℝ)] = -1 ∧
    (matchScan [(1 : ℝ)]
      [Faq.mk ("q1") ("a1") [-1], Faq.mk ("q2") ("a2") [-1]]).2 = none := by
  refine ⟨cos_one_negone, ?_⟩
  have h1 : scanStep [(1 : ℝ)] (-1, none) (Faq.mk ("q1") ("a1") [-1]) =
      (-1, none) := by
    rw [scanStep]
    simp only [List.isEmpty_cons, Bool.false_eq_true, if_false]
    rw [cos_one_negone, if_neg (by norm_num)]
  have h2 : scanStep [(1 : ℝ)] (-1, none) (Faq.mk ("q2") ("a2") [-1]) =
      (-1, none) := by
    rw [scanStep]
    simp only [List.isEmpty_cons, Bool.false_eq_true, if_false]
    rw [cos_one_negone, if_neg (by norm_num)]
  rw [matchScan, List.foldl_cons, h1, List.foldl_cons, h2, List.foldl_nil]

/-- Claim C2 (amended): a candidate replaces the running best iff its
similarity is strictly greater; consequently, whenever a record attains
the maximal similarity of the bank, that maximum is strictly greater
than the `-1` sentinel, and every earlier record with a nonempty vector
scores strictly below it, the matcher returns exactly that record — in
particular, of two records with equal maximal similarity strictly above
`-1`, the earlier one wins. -/
theorem scan_strict_improve_first_wins (q : List ℝ) :
    (∀ st f, f.vector.isEmpty = false →
      scanStep q st f =
        if cosine_similarity q f.vector > st.1 then
          (cosine_similarity q f.vector, some f)
        else st) ∧
    (∀ l1 (f : Faq) l2, f.vector.isEmpty = false →
      -1 < cosine_similarity q f.vector →
      (∀ g ∈ l1, g.vector.isEmpty = false →
        cosine_similarity q g.vector < cosine_similarity q f.vector) →
      (∀ g ∈ l2, g.vector.isEmpty = false →
        cosine_similarity q g.vector ≤ cosine_similarity q f.vector) →
      matchScan q (l1 ++ f :: l2) =
        (cosine_similarity q f.vector, some f)) := by
  constructor
  · intro st f hv
    rw [scanStep, hv]
    simp
  · intro l1 f l2 hv hgt h1 h2
    rw [matchScan, List.foldl_append, List.foldl_cons]
    have hlt : (List.foldl (scanStep q) (-1, none) l1).1 <
        cosine_similarity q f.vector :=
      foldl_scanStep_lt q (cosine_similarity q f.vector) l1 (-1, none) hgt h1
    have hstep : scanStep q (List.foldl (scanStep q) (-1, none) l1) f =
        (cosine_similarity q f.vector, some f) := by
      rw [scanStep, hv]
      simp only [Bool.false_eq_true, if_false]
      exact if_pos hlt
    rw [hstep]
    exact foldl_scanStep_of_le q l2 (cosine_similarity q f.vector, some f) h2

/-- Witness for amended C2: two records both scoring exactly `1` against
the query `[1]`; the earlier one is returned with that score. -/
theorem scan_strict_improve_first_wins_witness :
    matchScan [(1 : ℝ)] [Faq.mk ("q1") ("a1") [1], Faq.mk ("q2") ("a2") [1]] =
      (1, some (Faq.mk ("q1") ("a1") [1])) := by
  have h := (scan_strict_improve_first_wins [(1 : ℝ)]).2 []
    (Faq.mk ("q1") ("a1") [1]) [Faq.mk ("q2") ("a2") [1]] rfl
    (by rw [cos_one_one]; norm_num)
    (by intro g hg; simp at hg)
    (by
      intro g hg hgv
      have hgeq : g = Faq.mk ("q2") ("a2") [1] := by simpa using hg
      rw [hgeq])
  rw [cos_one_one] at h
  exact h

/-- Counterexample to C3 as stated: the scan's initial score is exactly
`-1`, not strictly below `-1`; for the query `[1]` and a non-empty bank
whose single record scores exactly `-1`, the matcher reports no
candidate. -/
theorem scan_sentinel_cex :
    cosine_similarity [(1 : ℝ)] [(-1 : ℝ)] = -1 ∧
    (matchScan [(1 : ℝ)] [Faq.mk ("qz") ("az") [-1]]).2 = none := by
  refine ⟨cos_one_negone, ?_⟩
  rw [matchScan, List.foldl_cons, List.foldl_nil, scanStep]
  simp only [List.isEmpty_cons, Bool.false_eq_true, if_false]
  rw [cos_one_negone, if_neg (by norm_num)]

/-- Claim C3 (amended): the matcher's "no candidate" state is the
similarity sentinel exactly `-1` (the bottom of the valid cosine range),
so for every bank whose records with nonempty vectors all score exactly
`-1` against the query — in particular a non-empty all-`-1` bank — the
scan ends in the initial state `(-1, none)`: no best candidate is
reported. -/
theorem scan_all_neg_one (q : List ℝ) (faqs : List Faq)
    (h : ∀ f ∈ faqs, f.vector.isEmpty = false →
      cosine_similarity q f.vector = -1) :
    matchScan q faqs = (-1, none) := by
  rw [matchScan]
  exact foldl_scanStep_of_le q faqs (-1, none)
    (fun f hf hv => le_of_eq (h f hf hv))

/-- Witness for amended C3: a non-empty bank whose single record scores
exactly `-1` yields the no-candidate state. -/
theorem scan_all_neg_one_witness :
    matchScan [(1 : ℝ)] [Faq.mk ("qs") ("as") [-1]] = (-1, none) := by
  refine scan_all_neg_one [(1 : ℝ)] [Faq.mk ("qs") ("as") [-1]] ?_
  intro f hf hv
  have hfeq : f = Faq.mk ("qs") ("as") [-1] := by simpa using hf
  rw [hfeq]
  exact cos_one_negone

/-! ### Helper evaluations for the endpoints -/

lemma askAnswer_nil (v : List ℝ) : askAnswer v [] = noMatchMsg := by
  rw [askAnswer, if_neg]
  intro hc
  simp [matchScan] at hc

lemma scan_c4 :
    matchScan [(0 : ℝ)] [Faq.mk ("q4") ("a4") [1]] =
      (0, some (Faq.mk ("q4") ("a4") [1])) := by
  rw [matchScan, List.foldl_cons, List.foldl_nil, scanStep]
  simp only [List.isEmpty_cons, Bool.false_eq_true, if_false]
  rw [cos_zero_one, if_pos (by norm_num)]

lemma askAnswer_c4 :
    askAnswer [(0 : ℝ)] [Faq.mk ("q4") ("a4") [1]] = noMatchMsg := by
  rw [askAnswer, scan_c4, if_neg]
  intro hc
  have h1 := hc.1
  rw [threshold_eq] at h1
  norm_num at h1

/-- `find_one` on a collection split around the first matching document. -/
lemma findCompany_split :
    ∀ (pre : List Company) (c : Company) (post : List Company) (cid : String),
      (∀ x ∈ pre, x.company_id ≠ cid) → c.company_id = cid →
      findCompany (pre ++ c :: post) cid = some c := by
  intro pre
  induction pre with
  | nil =>
    intro c post cid _ hc
    rw [List.nil_append, findCompany]
    exact List.find?_cons_of_pos post (by simpa using hc)
  | cons x rest ih =>
    intro c post cid hpre hc
    have hx : ¬(x.company_id == cid) = true := by
      simpa using hpre x (List.mem_cons_self x rest)
    rw [List.cons_append, findCompany,
      List.find?_cons_of_neg (rest ++ c :: post) hx]
    exact ih c post cid (fun y hy => hpre y (List.mem_cons_of_mem x hy)) hc

/-- `$push/$each` on a collection split around the first matching
document: only that document changes, by appending the new records. -/
lemma pushFaqs_split :
    ∀ (pre : List Company) (c : Company) (post : List Company) (cid : String)
      (new : List Faq),
      (∀ x ∈ pre, x.company_id ≠ cid) → c.company_id = cid →
      pushFaqs (pre ++ c :: post) cid new =
        pre ++ Company.mk c.company_id (c.faqs ++ new) :: post := by
  intro pre
  induction pre with
  | nil =>
    intro c post cid new _ hc
    rw [List.nil_append, pushFaqs, if_pos (by simpa using hc), List.nil_append]
  | cons x rest ih =>
    intro c post cid new hpre hc
    have hx : ¬(x.company_id == cid) = true := by
      simpa using hpre x (List.mem_cons_self x rest)
    rw [List.cons_append, pushFaqs, if_neg hx, List.cons_append,
      ih c post cid new (fun y hy => hpre y (List.mem_cons_of_mem x hy)) hc]

/-- Counterexample to C4 as stated: an ask request whose `question` field
is the empty string is not rejected — validation only checks key
presence — and for a trained tenant the embedder and matcher do run,
producing the normal rejection-sentinel answer (the zero embedding of
the empty text scores `0 < 0.7`). -/
theorem ask_empty_question_cex :
    ask embedZ [Company.mk ("c4") [Faq.mk ("q4") ("a4") [1]]]
        (some (AskRequest.mk (some ("c4")) (some ("")))) =
      AskResult.answer noMatchMsg ∧
    ask embedZ [Company.mk ("c4") [Faq.mk ("q4") ("a4") [1]]]
        (some (AskRequest.mk (some ("c4")) (some ("")))) ≠
      AskResult.invalidInput := by
  have h : ask embedZ [Company.mk ("c4") [Faq.mk ("q4") ("a4") [1]]]
      (some (AskRequest.mk (some ("c4")) (some ("")))) =
      AskResult.answer (askAnswer [(0 : ℝ)] [Faq.mk ("q4") ("a4") [1]]) := by
    simp only [ask]
    rw [show findCompany [Company.mk ("c4") [Faq.mk ("q4") ("a4") [1]]] ("c4") =
      some (Company.mk ("c4") [Faq.mk ("q4") ("a4") [1]]) from rfl]
    rfl
  rw [h, askAnswer_c4]
  exact ⟨rfl, by intro hc; cases hc⟩

/-- Claim C4 (amended): `ask` rejects with `InvalidInput` exactly when
the body is missing/falsy or the `company_id` or `question` key is
absent; an empty-string `question` passes validation, and the request
proceeds to the tenant lookup — for a trained tenant the matcher runs on
the embedding of the (possibly empty) question. -/
theorem ask_validation (embed : String → List ℝ) (db : List Company)
    (cid q : String) :
    (ask embed db none = AskResult.invalidInput) ∧
    (∀ d : AskRequest, d.company_id = none ∨ d.question = none →
      ask embed db (some d) = AskResult.invalidInput) ∧
    (findCompany db cid = none →
      ask embed db (some (AskRequest.mk (some cid) (some q))) =
        AskResult.answer notTrainedMsg) ∧
    (∀ doc, findCompany db cid = some doc →
      ask embed db (some (AskRequest.mk (some cid) (some q))) =
        AskResult.answer (askAnswer (embed q) doc.faqs)) := by
  refine ⟨rfl, ?_, ?_, ?_⟩
  · intro d hd
    rcases d with ⟨dc, dq⟩
    rcases hd with h | h
    · simp only at h
      subst h
      rfl
    · simp only at h
      subst h
      cases dc with
      | none => rfl
      | some c => rfl
  · intro h
    simp only [ask]
    rw [h]
  · intro doc h
    simp only [ask]
    rw [h]

/-- Witness for amended C4: a missing body is rejected, while an
empty-string question on an untrained tenant passes validation and
yields the normal "not trained" answer. -/
theorem ask_validation_witness :
    ask embedZ [] none = AskResult.invalidInput ∧
    ask embedZ [] (some (AskRequest.mk (some ("c0")) (some ("")))) =
      AskResult.answer notTrainedMsg := by
  constructor
  · exact (ask_validation embedZ [] ("c0") ("")).1
  · exact (ask_validation embedZ [] ("c0") ("")).2.2.1 rfl

/-- Claim C9: `ask` distinguishes an untrained tenant from a
trained-but-empty bank: with no document for the tenant it returns the
"Company not trained yet." sentinel; with a document holding an empty
`faqs` sequence it returns "Sorry, no relevant answer found." — both as
normal successful answers. -/
theorem ask_untrained_vs_empty (embed : String → List ℝ) (db : List Company)
    (cid q : String) :
    (findCompany db cid = none →
      ask embed db (some (AskRequest.mk (some cid) (some q))) =
        AskResult.answer notTrainedMsg) ∧
    (∀ doc, findCompany db cid = some doc → doc.faqs = [] →
      ask embed db (some (AskRequest.mk (some cid) (some q))) =
        AskResult.answer noMatchMsg) := by
  constructor
  · intro h
    simp only [ask]
    rw [h]
  · intro doc h hfaqs
    simp only [ask]
    rw [h]
    show AskResult.answer (askAnswer (embed q) doc.faqs) =
      AskResult.answer noMatchMsg
    rw [hfaqs, askAnswer_nil]

/-- Witness for C9: an untrained tenant answers "Company not trained
yet."; a tenant whose document exists with an empty bank answers
"Sorry, no relevant answer found.". -/
theorem ask_untrained_vs_empty_witness :
    ask embedW [] (some (AskRequest.mk (some ("acme")) (some ("hi")))) =
      AskResult.answer notTrainedMsg ∧
    ask embedW [Company.mk ("acme") []]
        (some (AskRequest.mk (some ("acme")) (some ("hi")))) =
      AskResult.answer noMatchMsg := by
  constructor
  · exact (ask_untrained_vs_empty embedW [] ("acme") ("hi")).1 rfl
  · exact (ask_untrained_vs_empty embedW [Company.mk ("acme") []]
      ("acme") ("hi")).2 (Company.mk ("acme") []) rfl rfl

/-- Claim C7: an item whose question or answer is missing or empty is
silently skipped while the rest of the batch still processes, and a
batch whose items are all filtered out makes the whole call fail with
`NoValidInput`, leaving the store unchanged. -/
theorem train_filter_and_noValidInput (embed : String → List ℝ)
    (db : List Company) (cid : String) (faqs : List FaqItem) :
    (∀ it rest, itemSkipped it →
      processFaqs embed (it :: rest) = processFaqs embed rest) ∧
    (∀ it rest q a, it.question = some q → it.answer = some a →
      q ≠ "" → a ≠ "" →
      processFaqs embed (it :: rest) =
        Faq.mk q a (embed q) :: processFaqs embed rest) ∧
    (processFaqs embed faqs = [] →
      train embed db (some (TrainRequest.mk (some cid) (some faqs))) =
        (TrainResult.noValidInput, db)) := by
  refine ⟨?_, ?_, ?_⟩
  · intro it rest h
    rcases it with ⟨iq, ia⟩
    rcases h with h | h | h | h
    · simp only at h
      subst h
      rfl
    · simp only at h
      subst h
      cases ia with
      | none => rfl
      | some a => simp [processFaqs]
    · simp only at h
      subst h
      cases iq with
      | none => rfl
      | some q => simp [processFaqs]
    · simp only at h
      subst h
      cases iq with
      | none => rfl
      | some q => simp [processFaqs]
  · intro it rest q a hq ha hq0 ha0
    simp [processFaqs, hq, ha, hq0, ha0]
  · intro h
    simp [train, h]

/-- Witness for C7: an item with an empty question is skipped, and the
resulting all-filtered batch fails with `NoValidInput` on an unchanged
store. -/
theorem train_filter_and_noValidInput_witness :
    processFaqs embedW [FaqItem.mk (some ("")) (some ("ans"))] = [] ∧
    train embedW []
        (some (TrainRequest.mk (some ("c"))
          (some [FaqItem.mk (some ("")) (some ("ans"))]))) =
      (TrainResult.noValidInput, []) := by
  have h1 := (train_filter_and_noValidInput embedW [] ("c")
    [FaqItem.mk (some ("")) (some ("ans"))]).1
    (FaqItem.mk (some ("")) (some ("ans"))) [] (Or.inr (Or.inl rfl))
  have h2 : processFaqs embedW [FaqItem.mk (some ("")) (some ("ans"))] = [] :=
    h1.trans rfl
  exact ⟨h2, (train_filter_and_noValidInput embedW [] ("c")
    [FaqItem.mk (some ("")) (some ("ans"))]).2.2 h2⟩

/-- Claim C8: a successful train call creates the tenant's bank with
exactly the new records when none exists, and otherwise appends the new
records after the existing sequence of the tenant's document, leaving
every existing record and every other document unchanged (no
deduplication, no update-by-question). -/
theorem train_create_or_append (embed : String → List ℝ) (db : List Company)
    (cid : String) (faqs : List FaqItem)
    (hne : processFaqs embed faqs ≠ []) :
    (findCompany db cid = none →
      train embed db (some (TrainRequest.mk (some cid) (some faqs))) =
        (TrainResult.success, db ++ [Company.mk cid (processFaqs embed faqs)])) ∧
    (∀ pre c post, db = pre ++ c :: post →
      (∀ x ∈ pre, x.company_id ≠ cid) → c.company_id = cid →
      train embed db (some (TrainRequest.mk (some cid) (some faqs))) =
        (TrainResult.success,
          pre ++ Company.mk c.company_id
            (c.faqs ++ processFaqs embed faqs) :: post)) := by
  have hie : (processFaqs embed faqs).isEmpty = false := by
    cases hp : processFaqs embed faqs with
    | nil => exact absurd hp hne
    | cons a l => rfl
  constructor
  · intro hf
    simp [train, hie, hf]
  · intro pre c post hdb hpre hc
    have hfc : findCompany db cid = some c := by
      rw [hdb]
      exact findCompany_split pre c post cid hpre hc
    have hpush : pushFaqs db cid (processFaqs embed faqs) =
        pre ++ Company.mk c.company_id
          (c.faqs ++ processFaqs embed faqs) :: post := by
      rw [hdb]
      exact pushFaqs_split pre c post cid (processFaqs embed faqs) hpre hc
    simp [train, hie, hfc, hpush]

/-- Witness for C8: training a new tenant creates its bank with exactly
the one new record; training the same tenant again appends the new
record after the existing one, which is untouched. -/
theorem train_create_or_append_witness :
    train embedW []
        (some (TrainRequest.mk (some ("c"))
          (some [FaqItem.mk (some ("qa")) (some ("aa"))]))) =
      (TrainResult.success, [Company.mk ("c") [Faq.mk ("qa") ("aa") [1]]]) ∧
    train embedW [Company.mk ("c") [Faq.mk ("q0") ("a0") [1]]]
        (some (TrainRequest.mk (some ("c"))
          (some [FaqItem.mk (some ("qa")) (some ("aa"))]))) =
      (TrainResult.success,
        [Company.mk ("c") [Faq.mk ("q0") ("a0") [1], Faq.mk ("qa") ("aa") [1]]]) := by
  have hne : processFaqs embedW [FaqItem.mk (some ("qa")) (some ("aa"))] ≠ [] := by
    simp [processFaqs, embedW]
  constructor
  · exact (train_create_or_append embedW [] ("c")
      [FaqItem.mk (some ("qa")) (some ("aa"))] hne).1 rfl
  · exact (train_create_or_append embedW
      [Company.mk ("c") [Faq.mk ("q0") ("a0") [1]]] ("c")
      [FaqItem.mk (some ("qa")) (some ("aa"))] hne).2
      [] (Company.mk ("c") [Faq.mk ("q0") ("a0") [1]]) [] rfl
      (by intro x hx; simp at hx) rfl

/-- Claim C10: every train call that fails validation — `InvalidInput`
for missing fields or `NoValidInput` for an all-filtered batch — leaves
the persisted collection unchanged (the store stage is never reached). -/
theorem train_validation_preserves_db (embed : String → List ℝ)
    (db : List Company) (data : Option TrainRequest)
    (h : (train embed db data).1 = TrainResult.invalidInput ∨
      (train embed db data).1 = TrainResult.noValidInput) :
    (train embed db data).2 = db := by
  rcases data with _ | d
  · rfl
  rcases d with ⟨dc, df⟩
  rcases dc with _ | cid
  · rfl
  rcases df with _ | faqs
  · rfl
  by_cases hie : (processFaqs embed faqs).isEmpty = true
  · have ht : train embed db (some (TrainRequest.mk (some cid) (some faqs))) =
        (TrainResult.noValidInput, db) := by
      simp [train, hie]
    rw [ht]
  · have hie2 : (processFaqs embed faqs).isEmpty = false := by
      simpa using hie
    cases hfc : findCompany db cid with
    | some c =>
      have ht : train embed db (some (TrainRequest.mk (some cid) (some faqs))) =
          (TrainResult.success,
            pushFaqs db cid (processFaqs embed faqs)) := by
        simp [train, hie2, hfc]
      rw [ht] at h
      rcases h with h | h <;> simp at h
    | none =>
      have ht : train embed db (some (TrainRequest.mk (some cid) (some faqs))) =
          (TrainResult.success,
            db ++ [Company.mk cid (processFaqs embed faqs)]) := by
        simp [train, hie2, hfc]
      rw [ht] at h
      rcases h with h | h <;> simp at h

/-- Witness for C10: a train call with a missing body is rejected with
`InvalidInput` and the collection is unchanged. -/
theorem train_validation_preserves_db_witness :
    (train embedW [] none).2 = [] :=
  train_validation_preserves_db embedW [] none (Or.inl rfl)

end FaqService
